import Mathlib

/-!
# Verification of `app.py` (family-assistant school-handout scanner)

Shallow embedding of the single source file `src/app.py`:

* `analyze_file` — the Gemini document analyzer (upload, poll, generate,
  JSON-parse), wrapped by `@st.cache_data` memoization;
* `send_to_notion` — the Notion calendar sink (one POST per record,
  counting success statuses);
* the Streamlit session glue: the mime-type inference at the upload
  widget, the "AI解析開始" button handler and the "🚀 Notionに登録する"
  button handler.

Python effects are made explicit: exceptions become `Except`, the remote
services become environment records supplying each remote call's outcome,
`st.session_state` becomes explicitly threaded state, and the
`st.cache_data` cache becomes an explicit association list.
-/

set_option autoImplicit false

namespace App

/-! ## Python-side data

An extracted event record is a Python dict whose keys may be absent.
`event` and `date` are accessed with `item['…']` in the source (raising
`KeyError` when absent); `items` and `note` are accessed with `.get`.
`note` distinguishes key-absent (`none`) from key-present-with-null
(`some none`) from a string value (`some (some s)`). -/
structure PyRecord where
  event : Option String
  date : Option String
  items : Option (List String)
  note : Option (Option String)
  deriving DecidableEq, Repr

/-- The only exception `send_to_notion` itself can raise: a `KeyError`
from `item['event']` or `item['date']` on a dict lacking that key. -/
inductive PyError where
  | keyError (key : String)
  deriving DecidableEq, Repr

/-! ## Calendar Sink (`send_to_notion`, app.py lines 78–131) -/

/-- The claim-relevant content of the Notion page-creation payload built
for one record (app.py lines 96–124): the `Name` title text, the `Date`
start value, the `Tags` multi-select name, the callout block content,
its emoji icon, and the paragraph block content. -/
structure Payload where
  title : String
  date : String
  tag : String
  itemsBlock : String
  calloutIcon : String
  noteBlock : String
  deriving DecidableEq, Repr

/-- `icon = "🎒" if item.get('items') else "🗓️"` (line 97): `.get`
yields `None` when the key is absent, and a list is truthy iff
non-empty. -/
def recordIcon (r : PyRecord) : String :=
  match r.items with
  | some (_ :: _) => "🎒"
  | _ => "🗓️"

/-- `items_text = "、".join(item.get('items', []))` (line 99). -/
def itemsText (r : PyRecord) : String :=
  String.intercalate "、" (r.items.getD [])

/-- `note_text = item.get('note') or ""` (line 100): `.get` collapses an
absent key and a present `None` both to `None`, and `x or ""` maps
`None` (and `""`) to `""`. -/
def noteText (r : PyRecord) : String :=
  (Option.join r.note).getD ""

/-- Build the page payload for one record (lines 96–124).  `item['event']`
(line 98) and `item['date']` (line 106) raise `KeyError` when the key is
absent; `event` is evaluated first. -/
def buildPayload (r : PyRecord) : Except PyError Payload :=
  match r.event with
  | none => .error (.keyError "event")
  | some ev =>
    match r.date with
    | none => .error (.keyError "date")
    | some d =>
      .ok { title := recordIcon r ++ " " ++ ev
            date := d
            tag := "学校"
            itemsBlock := "持ち物: " ++ itemsText r
            calloutIcon := "🎒"
            noteBlock := "備考: " ++ noteText r }

/-- The status text `f"送信中: {item['event']}..."` shown before each
POST (line 93); `item['event']` raises `KeyError` when absent. -/
def progressText (r : PyRecord) : Except PyError String :=
  match r.event with
  | none => .error (.keyError "event")
  | some ev => .ok ("送信中: " ++ ev ++ "...")

/-- The status codes returned by a sequence of POSTs: the `i`-th issued
call (counting from the given start index) on the `i`-th payload. -/
def statusesFrom (post : Nat → Payload → Nat) : Nat → List Payload → List Nat
  | _, [] => []
  | i, p :: ps => post i p :: statusesFrom post (i + 1) ps

/-- The loop of `send_to_notion` (lines 91–127), from call index `i`.
`post` models `requests.post`: the status code of the `i`-th issued
call.  Returns the payloads actually POSTed, the progress texts shown,
and either the success count or the `KeyError` that escaped (aborting
the loop; payloads already sent stay sent). -/
def sendFrom (post : Nat → Payload → Nat) :
    Nat → List PyRecord → List Payload × List String × Except PyError Nat
  | _, [] => ([], [], .ok 0)
  | i, r :: rest =>
    match progressText r with
    | .error e => ([], [], .error e)
    | .ok prog =>
      match buildPayload r with
      | .error e => ([], [prog], .error e)
      | .ok p =>
        let s := post i p
        let (ps, ts, out) := sendFrom post (i + 1) rest
        (p :: ps, prog :: ts,
          out.map (fun c => (if s = 200 then 1 else 0) + c))

/-- `send_to_notion(data_list)` (lines 78–131): one POST per record in
input order, returning `success_count` = the number of calls whose
status code was 200. -/
def send_to_notion (post : Nat → Payload → Nat) (data_list : List PyRecord) :
    List Payload × List String × Except PyError Nat :=
  sendFrom post 0 data_list

/-! ## Document Analyzer (`analyze_file`, app.py lines 31–73)

The body runs inside one `try`.  Remote calls that can raise are modelled
by `Except RemoteExc` outcomes supplied by a `GeminiEnv`; the two `except`
clauses of the source dispatch on the exception: `ResourceExhausted` hits
the first clause, everything else the catch-all `except Exception`. -/

/-- An exception raised inside the `try` block by a remote call:
`ResourceExhausted` or any other error (carrying its `str(e)` text). -/
inductive RemoteExc where
  | resourceExhausted
  | otherExc (msg : String)
  deriving DecidableEq, Repr

/-- Environment of one (uncached) `analyze_file` run: outcome of
`genai.upload_file` (line 39), the handle's state names as observed at
upload time and on each subsequent `genai.get_file` poll (lines 42–44),
the outcome of `model.generate_content` — its `response.text` on success
(lines 62–65) — and the behavior of `json.loads` (line 66), which raises
(with message `msg`) on invalid JSON.  Since the parsed value flows
unvalidated into the record list used downstream, a successful parse is
modelled directly as the record list it denotes. -/
structure GeminiEnv where
  uploadResult : Except RemoteExc Unit
  firstState : String
  laterStates : List String
  genResult : Except RemoteExc String
  jsonLoads : String → Except String (List PyRecord)

/-- The polling loop `while uploaded_file.state.name == "PROCESSING"`
(lines 42–44): skip states equal to `"PROCESSING"`, return the first
other state; `none` if every observed state is `"PROCESSING"` (the loop
never terminates). -/
def awaitReady : String → List String → Option String
  | s, [] => if s = "PROCESSING" then none else some s
  | s, s₂ :: rest => if s = "PROCESSING" then awaitReady s₂ rest else some s

/-- Which path of `analyze_file` executed.  Each constructor is one exit
of the source function; all but `ok` display an error and return
`None`. -/
inductive AnalyzeOutcome where
  | processingFailed
  | quotaExceeded
  | genericError (msg : String)
  | ok (records : List PyRecord)
  deriving DecidableEq, Repr

/-- The Python value `analyze_file` returns on each outcome: `None` on
every failure path (lines 48, 70, 73), the parsed JSON on success
(line 66). -/
def retValue : AnalyzeOutcome → Option (List PyRecord)
  | .processingFailed => none
  | .quotaExceeded => none
  | .genericError _ => none
  | .ok v => some v

/-- The `st.error` message displayed on each failure path (lines 47, 69,
72); `none` on success. -/
def errorMsg : AnalyzeOutcome → Option String
  | .processingFailed => some "Google側で画像処理に失敗しました。"
  | .quotaExceeded =>
      some "⚠️ API利用制限（混雑）のためエラーになりました。1分ほど待ってから再度「AI解析開始」を押してください。"
  | .genericError m => some ("エラーが発生しました: " ++ m)
  | .ok _ => none

/-- The body of `analyze_file` (lines 37–73), without the cache.
`none` models the unbounded polling loop never terminating; otherwise
the outcome records which exit was taken: `except ResourceExhausted`
(line 68) gives `quotaExceeded`, the catch-all `except Exception`
(line 71) gives `genericError` — including a `json.loads` failure — the
`"FAILED"` check (line 46) gives `processingFailed`, and a parsed reply
gives `ok`. -/
def analyze_body (env : GeminiEnv) : Option AnalyzeOutcome :=
  match env.uploadResult with
  | .error .resourceExhausted => some .quotaExceeded
  | .error (.otherExc m) => some (.genericError m)
  | .ok () =>
    match awaitReady env.firstState env.laterStates with
    | none => none
    | some s =>
      if s = "FAILED" then some .processingFailed
      else
        match env.genResult with
        | .error .resourceExhausted => some .quotaExceeded
        | .error (.otherExc m) => some (.genericError m)
        | .ok text =>
          match env.jsonLoads text with
          | .error m => some (.genericError m)
          | .ok v => some (.ok v)

/-! ## Memoization (`@st.cache_data`, app.py line 31)

`st.cache_data` keys the cache on the argument tuple
`(file_path, mime_type)` and stores the function's return value. -/

/-- The memo cache: association list from `(file_path, mime_type)` to
the cached return value of `analyze_file`. -/
abbrev Cache := List ((String × String) × Option (List PyRecord))

/-- Cache lookup by key. -/
def cacheLookup (key : String × String) : Cache → Option (Option (List PyRecord))
  | [] => none
  | (k, v) :: rest => if k = key then some v else cacheLookup key rest

/-- The cached `analyze_file(file_path, mime_type)` (line 31–32): on a
hit, return the cached value without running the body (zero remote
calls); on a miss, run the body — which issues exactly one
`genai.upload_file` call — and cache its return value.  The result is
the returned value, the updated cache, and the number of remote upload
calls issued; `none` if the body never terminates. -/
def analyze_file (cache : Cache) (file_path mime_type : String)
    (env : GeminiEnv) : Option (Option (List PyRecord) × Cache × Nat) :=
  match cacheLookup (file_path, mime_type) cache with
  | some v => some (v, cache, 0)
  | none =>
    (analyze_body env).map fun out =>
      (retValue out, ((file_path, mime_type), retValue out) :: cache, 1)

/-! ## Mime-type inference at the upload widget (app.py line 156) -/

/-- Python's `str.endswith`: is `suffix` a suffix of `name`, compared
character by character. -/
def endsWithPy (name suffix : String) : Bool :=
  suffix.data.isSuffixOf name.data

/-- `mime_type = "application/pdf" if uploaded_file.name.endswith(".pdf")
else "image/jpeg"`. -/
def mimeType (name : String) : String :=
  if endsWithPy name ".pdf" then "application/pdf" else "image/jpeg"

/-! ## Session Controller glue (app.py lines 139–185) -/

/-- `st.session_state['analyzed_data']`: `None` initially, a record list
after a successful analysis. -/
abbrev Session := Option (List PyRecord)

/-- Python truthiness of the session value, as tested by
`if result:` (line 161) and `if st.session_state['analyzed_data']:`
(line 169): `None` and the empty list are falsy. -/
def sessionTruthy : Session → Bool
  | some (_ :: _) => true
  | _ => false

/-- The "AI解析開始" button handler (lines 150–166): the uploaded bytes
are written to a freshly created temporary file `tmpPath` (lines
152–154; `tempfile.NamedTemporaryFile` creates a new file each click),
the mime type is inferred from the uploaded file's name (line 156),
`analyze_file` is called on `(tmpPath, mime)` (line 159), and the
session is updated only when the result is truthy (lines 161–162).
Returns the updated cache, the updated session, and the number of
remote upload calls issued. -/
def clickAnalyze (fileName tmpPath : String) (env : GeminiEnv)
    (cache : Cache) (sess : Session) : Option (Cache × Session × Nat) :=
  let mime := mimeType fileName
  match analyze_file cache tmpPath mime env with
  | none => none
  | some (result, cache', n) =>
    some (cache', if sessionTruthy result then result else sess, n)

/-- The "🚀 Notionに登録する" button handler (lines 177–181):
`send_to_notion(edited_data)` runs; on normal return the count is
reported and `st.session_state['analyzed_data']` is cleared to `None`;
if a `KeyError` escapes the sink, the script aborts before the clearing
line, leaving the session unchanged and reporting nothing. -/
def submitClick (post : Nat → Payload → Nat) (edited : List PyRecord)
    (sess : Session) : Session × Option Nat :=
  match (send_to_notion post edited).2.2 with
  | .ok c => (none, some c)
  | .error _ => (sess, none)

/-! ## Helper lemmas -/

/-- Joining the empty list yields the empty string. -/
theorem intercalate_nil (s : String) : s.intercalate [] = "" := rfl

/-- The quota-path error message is never the catch-all path's message:
the two differ already in their first character. -/
theorem quotaMsg_ne_genericMsg (m : String) :
    errorMsg .quotaExceeded ≠ errorMsg (.genericError m) := by
  simp only [errorMsg, ne_eq, Option.some.injEq]
  intro h
  have hd : ("⚠️ API利用制限（混雑）のためエラーになりました。1分ほど待ってから再度「AI解析開始」を押してください。").data.head?
      = ("エラーが発生しました: " ++ m).data.head? := by rw [h]
  rw [String.data_append] at hd
  have h2 : (("エラーが発生しました: ").data ++ m.data).head? = some 'エ' := rfl
  rw [h2] at hd
  exact absurd hd (by decide)

/-! ## Claim theorems -/

/-- C2.  When the remote generation call raises `ResourceExhausted`
(quota exhaustion) — upload having succeeded and the handle having left
`"PROCESSING"` without failing — `analyze_file`'s body takes the
dedicated `except ResourceExhausted` path: the outcome is the distinct
`quotaExceeded` variant, unequal to every other variant, its displayed
message is the quota message and differs from the messages of the
`"FAILED"` path and of every catch-all generic-error path, and the
function returns `None` rather than raising. -/
theorem analyze_quota_exhaustion_distinct (env : GeminiEnv) (s : String)
    (hup : env.uploadResult = .ok ())
    (hready : awaitReady env.firstState env.laterStates = some s)
    (hs : s ≠ "FAILED")
    (hq : env.genResult = .error .resourceExhausted) :
    analyze_body env = some .quotaExceeded ∧
    retValue .quotaExceeded = none ∧
    errorMsg .quotaExceeded =
      some "⚠️ API利用制限（混雑）のためエラーになりました。1分ほど待ってから再度「AI解析開始」を押してください。" ∧
    errorMsg .quotaExceeded ≠ errorMsg .processingFailed ∧
    (∀ m, errorMsg .quotaExceeded ≠ errorMsg (.genericError m)) ∧
    AnalyzeOutcome.quotaExceeded ≠ .processingFailed ∧
    (∀ m, AnalyzeOutcome.quotaExceeded ≠ .genericError m) ∧
    (∀ v, AnalyzeOutcome.quotaExceeded ≠ .ok v) := by
  refine ⟨?_, rfl, rfl, by decide, quotaMsg_ne_genericMsg, by decide,
    fun m => by simp, fun v => by simp⟩
  simp [analyze_body, hup, hready, hs, hq]

/-- Witness for C2: a concrete environment whose generation call raises
`ResourceExhausted`. -/
theorem analyze_quota_exhaustion_distinct_witness :
    analyze_body ⟨.ok (), "ACTIVE", [], .error .resourceExhausted, fun _ => .ok []⟩
      = some .quotaExceeded :=
  (analyze_quota_exhaustion_distinct
    ⟨.ok (), "ACTIVE", [], .error .resourceExhausted, fun _ => .ok []⟩
    "ACTIVE" rfl rfl (by decide) rfl).1

/-- C3.  When the uploaded handle reaches the terminal `"FAILED"` state,
`analyze_file`'s body takes the `processingFailed` path: it displays the
remote-processing-failure message and returns `None` — a value unequal
to `some []`, the return value of a successful analysis that extracted
zero events, so the failure is distinguishable from an empty success. -/
theorem analyze_processing_failed_distinct (env : GeminiEnv)
    (hup : env.uploadResult = .ok ())
    (hready : awaitReady env.firstState env.laterStates = some "FAILED") :
    analyze_body env = some .processingFailed ∧
    retValue .processingFailed = none ∧
    errorMsg .processingFailed = some "Google側で画像処理に失敗しました。" ∧
    retValue (.ok []) = some [] ∧
    retValue .processingFailed ≠ retValue (.ok []) ∧
    (∀ v, AnalyzeOutcome.processingFailed ≠ .ok v) := by
  refine ⟨?_, rfl, rfl, rfl, by simp [retValue], fun v => by simp⟩
  simp [analyze_body, hup, hready]

/-- Witness for C3: a concrete environment whose handle polls from
`"PROCESSING"` to `"FAILED"`. -/
theorem analyze_processing_failed_distinct_witness :
    analyze_body ⟨.ok (), "PROCESSING", ["FAILED"], .ok "[]", fun _ => .ok []⟩
      = some .processingFailed :=
  (analyze_processing_failed_distinct
    ⟨.ok (), "PROCESSING", ["FAILED"], .ok "[]", fun _ => .ok []⟩ rfl rfl).1

/-- C8.  When the generation reply `text` is not valid JSON
(`json.loads` raises with message `m`), the exception is caught by the
catch-all `except Exception` clause: `analyze_file`'s body returns the
handled `genericError m` outcome — displaying the formatted error
message and returning `None` — instead of propagating the raw parse
exception. -/
theorem analyze_malformed_reply_handled (env : GeminiEnv) (s text m : String)
    (hup : env.uploadResult = .ok ())
    (hready : awaitReady env.firstState env.laterStates = some s)
    (hs : s ≠ "FAILED")
    (hgen : env.genResult = .ok text)
    (hparse : env.jsonLoads text = .error m) :
    analyze_body env = some (.genericError m) ∧
    retValue (.genericError m) = none ∧
    errorMsg (.genericError m) = some ("エラーが発生しました: " ++ m) := by
  refine ⟨?_, rfl, rfl⟩
  simp [analyze_body, hup, hready, hs, hgen, hparse]

/-- Witness for C8: a concrete environment whose reply `"oops"` fails to
parse. -/
theorem analyze_malformed_reply_handled_witness :
    analyze_body
      ⟨.ok (), "ACTIVE", [], .ok "oops", fun _ => .error "Expecting value"⟩
      = some (.genericError "Expecting value") :=
  (analyze_malformed_reply_handled
    ⟨.ok (), "ACTIVE", [], .ok "oops", fun _ => .error "Expecting value"⟩
    "ACTIVE" "oops" "Expecting value" rfl rfl (by decide) rfl rfl).1

/-- C4.  On the single record `{event: "遠足", date: "2026-04-10",
items: ["水筒", "帽子"], note: null}` with a remote API that reports
success (status 200), `send_to_notion` issues exactly one call whose
page title is `"🎒 遠足"` (non-empty `items` selects the 🎒 icon), whose
items block reads `"持ち物: 水筒、帽子"` (items joined with `"、"`) and
whose note block reads `"備考: "` (null note rendered empty), and
returns 1. -/
theorem submit_single_excursion_record :
    send_to_notion (fun _ _ => 200)
        [⟨some "遠足", some "2026-04-10", some ["水筒", "帽子"], some none⟩] =
      ([⟨"🎒 遠足", "2026-04-10", "学校", "持ち物: 水筒、帽子", "🎒", "備考: "⟩],
       ["送信中: 遠足..."], .ok 1) := rfl

/-- Generalized over the starting call index: when every record carries
its `event` and `date` keys, the sink loop issues exactly one POST per
record and returns the number of issued calls whose status was 200. -/
theorem sendFrom_counts (post : Nat → Payload → Nat) (rs : List PyRecord) :
    ∀ i : Nat, (∀ r ∈ rs, r.event.isSome ∧ r.date.isSome) →
      (sendFrom post i rs).1.length = rs.length ∧
      (sendFrom post i rs).2.2 =
        .ok ((statusesFrom post i (sendFrom post i rs).1).count 200) := by
  induction rs with
  | nil => intro i _; exact ⟨rfl, rfl⟩
  | cons r rest ih =>
    intro i h
    obtain ⟨he, hd⟩ := h r (List.mem_cons_self r rest)
    obtain ⟨ev, hev⟩ := Option.isSome_iff_exists.mp he
    obtain ⟨d, hdd⟩ := Option.isSome_iff_exists.mp hd
    obtain ⟨hlen, hout⟩ := ih (i + 1) (fun r' hr' => h r' (List.mem_cons_of_mem r hr'))
    rcases hsf : sendFrom post (i + 1) rest with ⟨ps, ts, out⟩
    rw [hsf] at hlen hout
    dsimp only at hlen hout
    obtain ⟨pay, hpay⟩ : ∃ pay, buildPayload r = .ok pay := by
      simp [buildPayload, hev, hdd]
    have hsend : sendFrom post i (r :: rest)
        = (pay :: ps, ("送信中: " ++ ev ++ "...") :: ts,
           out.map fun c => (if post i pay = 200 then 1 else 0) + c) := by
      simp [sendFrom, progressText, hev, hpay, hsf]
    rw [hsend]
    subst hout
    refine ⟨by simp [hlen], ?_⟩
    dsimp only [Except.map, statusesFrom]
    rw [List.count_cons]
    by_cases hpc : post i pay = 200 <;> simp [hpc, Nat.add_comm]

/-- C5.  For every record sequence whose records carry their `event` and
`date` keys, `send_to_notion` issues exactly one create-page call per
record (no retry) and returns exactly the number of issued calls whose
status was the success status 200; failing calls are silently omitted
from the count and no error is raised for them. -/
theorem submit_counts_successes (post : Nat → Payload → Nat)
    (rs : List PyRecord)
    (h : ∀ r ∈ rs, r.event.isSome ∧ r.date.isSome) :
    (send_to_notion post rs).1.length = rs.length ∧
    (send_to_notion post rs).2.2 =
      .ok ((statusesFrom post 0 (send_to_notion post rs).1).count 200) :=
  sendFrom_counts post rs 0 h

/-- Witness for C5: two records, the first call succeeding (200) and the
second failing (404); two calls are issued and the count is 1. -/
theorem submit_counts_successes_witness :
    (send_to_notion (fun i _ => if i = 0 then 200 else 404)
        [⟨some "遠足", some "2026-04-10", some ["水筒"], none⟩,
         ⟨some "参観日", some "2026-05-01", none, some none⟩]).1.length = 2 ∧
    (send_to_notion (fun i _ => if i = 0 then 200 else 404)
        [⟨some "遠足", some "2026-04-10", some ["水筒"], none⟩,
         ⟨some "参観日", some "2026-05-01", none, some none⟩]).2.2 =
      .ok ((statusesFrom (fun i _ => if i = 0 then 200 else 404) 0
        (send_to_notion (fun i _ => if i = 0 then 200 else 404)
          [⟨some "遠足", some "2026-04-10", some ["水筒"], none⟩,
           ⟨some "参観日", some "2026-05-01", none, some none⟩]).1).count 200) :=
  submit_counts_successes (fun i _ => if i = 0 then 200 else 404)
    [⟨some "遠足", some "2026-04-10", some ["水筒"], none⟩,
     ⟨some "参観日", some "2026-05-01", none, some none⟩]
    (by decide)

/-- C6.  Submitting the empty record sequence returns success count 0,
issues zero POSTs and shows zero progress texts, for every behavior of
the remote API. -/
theorem submit_empty_no_calls (post : Nat → Payload → Nat) :
    send_to_notion post [] = ([], [], .ok 0) := rfl

/-- C7.  When `send_to_notion` returns normally with count `c` — for any
statuses of the individual calls, so regardless of how many rows failed —
the submit-button handler clears `st.session_state['analyzed_data']` to
`None` and reports `c`; the cleared session is falsy, so the submit
button's enclosing `if` no longer renders and the same analysis result
cannot be submitted again. -/
theorem submit_clears_session (post : Nat → Payload → Nat)
    (edited : List PyRecord) (sess : Session) (c : Nat)
    (h : (send_to_notion post edited).2.2 = .ok c) :
    submitClick post edited sess = (none, some c) ∧
    sessionTruthy (submitClick post edited sess).1 = false := by
  refine ⟨?_, ?_⟩ <;> simp [submitClick, h, sessionTruthy]

/-- Witness for C7: one record whose call fails (status 500); the sink
returns count 0 and the session, previously holding the record, is
cleared. -/
theorem submit_clears_session_witness :
    submitClick (fun _ _ => 500)
        [⟨some "遠足", some "2026-04-10", none, none⟩]
        (some [⟨some "遠足", some "2026-04-10", none, none⟩]) =
      (none, some 0) ∧
    sessionTruthy (submitClick (fun _ _ => 500)
        [⟨some "遠足", some "2026-04-10", none, none⟩]
        (some [⟨some "遠足", some "2026-04-10", none, none⟩])).1 = false :=
  submit_clears_session (fun _ _ => 500)
    [⟨some "遠足", some "2026-04-10", none, none⟩]
    (some [⟨some "遠足", some "2026-04-10", none, none⟩]) 0 rfl

/-- If any record of the list lacks its `event` or `date` key, the sink
loop raises a `KeyError` (from whatever starting call index). -/
theorem sendFrom_keyError (post : Nat → Payload → Nat) (r : PyRecord)
    (hmiss : r.event = none ∨ r.date = none) :
    ∀ (rs : List PyRecord) (i : Nat), r ∈ rs →
      ∃ k, (sendFrom post i rs).2.2 = .error (.keyError k) := by
  intro rs
  induction rs with
  | nil => intro i hr; cases hr
  | cons r₀ rest ih =>
    intro i hr
    rcases List.mem_cons.mp hr with rfl | hr'
    · rcases hmiss with he | hd
      · exact ⟨"event", by simp [sendFrom, progressText, he]⟩
      · rcases hev : r.event with _ | ev
        · exact ⟨"event", by simp [sendFrom, progressText, hev]⟩
        · exact ⟨"date", by simp [sendFrom, progressText, buildPayload, hev, hd]⟩
    · rcases hev : r₀.event with _ | ev
      · exact ⟨"event", by simp [sendFrom, progressText, hev]⟩
      · rcases hdd : r₀.date with _ | d
        · exact ⟨"date", by simp [sendFrom, progressText, buildPayload, hev, hdd]⟩
        · obtain ⟨pay, hpay⟩ : ∃ pay, buildPayload r₀ = .ok pay := by
            simp [buildPayload, hev, hdd]
          obtain ⟨k, hk⟩ := ih (i + 1) hr'
          rcases hsf : sendFrom post (i + 1) rest with ⟨ps, ts, out⟩
          rw [hsf] at hk
          dsimp only at hk
          subst hk
          exact ⟨k, by simp [sendFrom, progressText, hev, hpay, hsf, Except.map]⟩

/-- C9.  `send_to_notion` is partial on malformed records: whenever the
input list contains a record lacking the `event` key or the `date` key,
the loop raises a `KeyError` (the embedding's error branch is
reachable); a record lacking only `items` or `note` is tolerated — its
payload defaults to the 🗓️ icon with an empty joined-items text and an
empty note text — and a list of such records completes normally. -/
theorem sink_partial_on_missing_keys :
    (∀ (post : Nat → Payload → Nat) (rs : List PyRecord) (r : PyRecord),
        r ∈ rs → (r.event = none ∨ r.date = none) →
        ∃ k, (send_to_notion post rs).2.2 = .error (.keyError k)) ∧
    (∀ ev d, buildPayload ⟨some ev, some d, none, none⟩ =
        .ok ⟨"🗓️ " ++ ev, d, "学校", "持ち物: ", "🎒", "備考: "⟩) ∧
    (∀ (post : Nat → Payload → Nat) (ev d : String),
        ∃ c, (send_to_notion post [⟨some ev, some d, none, none⟩]).2.2 = .ok c) := by
  refine ⟨fun post rs r hr hmiss => sendFrom_keyError post r hmiss rs 0 hr,
    fun ev d => by
      simp [buildPayload, recordIcon, itemsText, noteText, intercalate_nil,
        String.append_empty], ?_⟩
  intro post ev d
  exact ⟨if post 0 ⟨"🗓️ " ++ ev, d, "学校", "持ち物: ", "🎒", "備考: "⟩ = 200
          then 1 else 0,
    by simp [send_to_notion, sendFrom, progressText, buildPayload, recordIcon,
      itemsText, noteText, intercalate_nil, String.append_empty, Except.map]⟩

/-- Witness for C9: a record missing `date` raises `KeyError`, and a
record with only `event` and `date` builds the default payload and is
accepted. -/
theorem sink_partial_on_missing_keys_witness :
    (∃ k, (send_to_notion (fun _ _ => 200)
        [⟨some "遠足", none, some ["水筒"], none⟩]).2.2 =
          .error (.keyError k)) ∧
    buildPayload ⟨some "参観日", some "2026-05-01", none, none⟩ =
      .ok ⟨"🗓️ 参観日", "2026-05-01", "学校", "持ち物: ", "🎒", "備考: "⟩ ∧
    (∃ c, (send_to_notion (fun _ _ => 200)
        [⟨some "参観日", some "2026-05-01", none, none⟩]).2.2 = .ok c) :=
  ⟨sink_partial_on_missing_keys.1 (fun _ _ => 200)
      [⟨some "遠足", none, some ["水筒"], none⟩]
      ⟨some "遠足", none, some ["水筒"], none⟩ (by simp) (Or.inr rfl),
   sink_partial_on_missing_keys.2.1 "参観日" "2026-05-01",
   sink_partial_on_missing_keys.2.2 (fun _ _ => 200) "参観日" "2026-05-01"⟩

/-- C10.  The analyzer's declared media type is decided solely by the
filename suffix: it is `"application/pdf"` iff the name ends with the
lowercase string `".pdf"`, and every other filename — including PNG
names and an uppercase `".PDF"` — is declared `"image/jpeg"`. -/
theorem mime_by_lowercase_pdf_suffix :
    (∀ name : String,
        (mimeType name = "application/pdf" ↔ endsWithPy name ".pdf" = true) ∧
        (endsWithPy name ".pdf" = false → mimeType name = "image/jpeg")) ∧
    mimeType "photo.png" = "image/jpeg" ∧
    mimeType "scan.PDF" = "image/jpeg" ∧
    mimeType "handout.pdf" = "application/pdf" := by
  refine ⟨fun name => ?_, by decide, by decide, by decide⟩
  unfold mimeType
  by_cases h : endsWithPy name ".pdf" <;> simp [h]

/-- Witness for C10: on the concrete uppercase name `"scan.PDF"` the
suffix test is false, so the declared type is `"image/jpeg"`, and the
pdf declaration is equivalent to the suffix test. -/
theorem mime_by_lowercase_pdf_suffix_witness :
    (mimeType "scan.PDF" = "application/pdf" ↔
      endsWithPy "scan.PDF" ".pdf" = true) ∧
    mimeType "scan.PDF" = "image/jpeg" :=
  ⟨(mime_by_lowercase_pdf_suffix.1 "scan.PDF").1,
   (mime_by_lowercase_pdf_suffix.1 "scan.PDF").2 (by decide)⟩

/-- The record extracted from the demo handout. -/
def excursionRec : PyRecord :=
  ⟨some "遠足", some "2026-04-10", some ["水筒", "帽子"], some none⟩

/-- A successful analyzer run for one fixed uploaded document: upload
succeeds, the handle is already `"ACTIVE"`, generation returns a reply
that parses to the single excursion record.  Byte-identical uploaded
content drives the remote service identically, so both clicks on the
same file share this environment. -/
def demoEnv : GeminiEnv :=
  ⟨.ok (), "ACTIVE", [], .ok "reply", fun _ => .ok [excursionRec]⟩

/-- Counterexample to C1 as stated.  Two "AI解析開始" clicks on the same
uploaded file — byte-identical content, same inferred media type
`"image/jpeg"`, identical remote behavior — but, as on every click,
`tempfile.NamedTemporaryFile` stores the bytes at a fresh path
(`"/tmp/upload1"`, then `"/tmp/upload2"`).  The `st.cache_data` key is
the `(file_path, mime_type)` argument pair, so the second click misses
the cache: each click issues one remote upload call, two in total,
where the claim requires the second call to short-circuit with only one
upload overall. -/
theorem analyze_twice_fresh_paths_two_uploads :
    (clickAnalyze "print.jpg" "/tmp/upload1" demoEnv [] none).map
        (fun x => x.2.2) = some 1 ∧
    (match clickAnalyze "print.jpg" "/tmp/upload1" demoEnv [] none with
      | some (c₁, s₁, _) =>
          (clickAnalyze "print.jpg" "/tmp/upload2" demoEnv c₁ s₁).map
            (fun x => x.2.2)
      | none => none) = some 1 :=
  ⟨rfl, rfl⟩

/-- C1 (amended).  Memoization is keyed on `analyze_file`'s argument
pair `(file_path, mime_type)`, not on file content: whenever a call on
`(path, mime)` returns — having issued `n ≤ 1` upload calls — a repeated
call on the same `(path, mime)` against the resulting cache returns the
same value and issues zero further upload calls.  (Byte-identical
content does not short-circuit through the UI, because each click
stores it at a fresh temporary path; see the counterexample.) -/
theorem analyze_memoized_on_path (cache : Cache) (path mime : String)
    (env : GeminiEnv) (r : Option (List PyRecord)) (c' : Cache) (n : Nat)
    (h : analyze_file cache path mime env = some (r, c', n)) :
    analyze_file c' path mime env = some (r, c', 0) := by
  unfold analyze_file at h ⊢
  rcases hl : cacheLookup (path, mime) cache with _ | v
  · rw [hl] at h
    rcases hb : analyze_body env with _ | out
    · rw [hb] at h
      cases h
    · rw [hb] at h
      simp only [Option.map, Option.some.injEq, Prod.mk.injEq] at h
      obtain ⟨rfl, rfl, rfl⟩ := h
      simp [cacheLookup]
  · rw [hl] at h
    simp only [Option.some.injEq, Prod.mk.injEq] at h
    obtain ⟨rfl, rfl, rfl⟩ := h
    simp [hl]

/-- Witness for the amended C1: after a first uncached call on
`("/tmp/upload1", "image/jpeg")` (one upload), the repeated call on the
same pair returns the cached record list with zero uploads. -/
theorem analyze_memoized_on_path_witness :
    analyze_file [(("/tmp/upload1", "image/jpeg"), some [excursionRec])]
        "/tmp/upload1" "image/jpeg" demoEnv
      = some (some [excursionRec],
          [(("/tmp/upload1", "image/jpeg"), some [excursionRec])], 0) :=
  analyze_memoized_on_path [] "/tmp/upload1" "image/jpeg" demoEnv
    (some [excursionRec])
    [(("/tmp/upload1", "image/jpeg"), some [excursionRec])] 1 rfl

end App
